import Mathlib

/-!
Shallow embedding of the resource-and-state management core of
`Source/SceneManager.cpp` (texture registry, material registry, shader
state dispatcher), with theorems checking the specification's claims
against it.

Modelling conventions:
* `float` scalar slots that are only stored, copied and compared are
  embedded as exact rationals; the transform pipeline, which applies
  trigonometry, is embedded over the reals.
* The external image loader (stb_image) is an opaque capability: a call
  site receives its result as an `Option ImageData` argument.
* OpenGL texture-name allocation (`glGenTextures`) is modelled by an
  explicit allocator state `GLState`; `glGenTextures(1, &id)` hands out
  the next fresh name and records it as live.
* A C++ store through `m_textureIDs[i]` with `i` outside the 16-slot
  array is undefined behavior; the embedding of such an operation
  returns `none`.
-/

namespace SceneMgr

/-- Exact embedding of a `glm::vec3` whose components are only stored and
copied (material colors). -/
structure Vec3 where
  x : ℚ
  y : ℚ
  z : ℚ
deriving DecidableEq, Repr

/-- Embedding of the `OBJECT_MATERIAL` record: tag, diffuse color,
specular color, shininess. -/
structure OBJECT_MATERIAL where
  diffuseColor : Vec3
  specularColor : Vec3
  shininess : ℚ
  tag : String
deriving DecidableEq, Repr

/-- Embedding of the `TEXTURE_ID` record stored in `m_textureIDs`:
a tag string and the OpenGL texture name, held as a C++ `int`. -/
structure TEXTURE_ID where
  tag : String
  ID : ℤ
deriving DecidableEq, Repr

/-- The texture registry portion of `SceneManager`: the fixed 16-slot
array `m_textureIDs` and the slot count `m_loadedTextures`. -/
structure TextureRegistry where
  textureIDs : Fin 16 → TEXTURE_ID
  loadedTextures : ℕ

/-- Abstract OpenGL texture-name allocator: the next fresh name and the
names currently allocated (generated and not deleted). -/
structure GLState where
  nextID : ℤ
  live : List ℤ
deriving DecidableEq, Repr

/-- Embedding of `glGenTextures(1, &id)`: returns a fresh name and the
allocator state with that name recorded as live. -/
def glGenTexture (gl : GLState) : ℤ × GLState :=
  (gl.nextID, { nextID := gl.nextID + 1, live := gl.live ++ [gl.nextID] })

/-- Result of a successful `stbi_load`: width, height and channel count
of the decoded image (the pixel buffer itself is opaque). -/
structure ImageData where
  width : ℤ
  height : ℤ
  colorChannels : ℤ
deriving DecidableEq, Repr

/-- The texture registry as the `SceneManager` constructor leaves it:
every slot holds tag `"/0"` and ID `-1`, and `m_loadedTextures = 0`. -/
def SceneManagerInit : TextureRegistry :=
  { textureIDs := fun _ => { tag := "/0", ID := -1 }, loadedTextures := 0 }

/-- Embedding of `SceneManager::CreateGLTexture`.  The decode outcome of
the image file is passed in as `decoded`.  On a successful decode the
code unconditionally generates a GL texture name; if the channel count
is neither 3 nor 4 it returns `false` with the registry untouched;
otherwise it stores `{ID := textureID, tag := tag}` at index
`m_loadedTextures` of the 16-slot array — without any bounds check, so
when `m_loadedTextures ≥ 16` that store is out of bounds (undefined
behavior, embedded as `none`) — and increments the count. -/
def CreateGLTexture (gl : GLState) (st : TextureRegistry)
    (decoded : Option ImageData) (tag : String) :
    Option (Bool × GLState × TextureRegistry) :=
  match decoded with
  | some image =>
    let p := glGenTexture gl
    if image.colorChannels = 3 ∨ image.colorChannels = 4 then
      if h : st.loadedTextures < 16 then
        some (true, p.2,
          { textureIDs :=
              Function.update st.textureIDs ⟨st.loadedTextures, h⟩
                { tag := tag, ID := p.1 },
            loadedTextures := st.loadedTextures + 1 })
      else none
    else
      some (false, p.2, st)
  | none => some (false, gl, st)

/-- Embedding of the scan loop shared by `FindTextureID`: starting at
`index`, while `index < m_loadedTextures` and no match has been found,
compare `m_textureIDs[index].tag` with the tag; on a match return that
entry's `ID`, otherwise advance.  Falls out with the initial `-1` when
the scan is exhausted.  (In every state reachable by loading,
`m_loadedTextures ≤ 16`, so the loop never reads past the array.) -/
def findTextureIDAux (st : TextureRegistry) (tag : String) (index : ℕ) : ℤ :=
  if h : index < st.loadedTextures ∧ index < 16 then
    if (st.textureIDs ⟨index, h.2⟩).tag = tag then
      (st.textureIDs ⟨index, h.2⟩).ID
    else
      findTextureIDAux st tag (index + 1)
  else
    (-1)
termination_by st.loadedTextures - index
decreasing_by omega

/-- Embedding of `SceneManager::FindTextureID` (a scan that reads the
registry and locals only, mutating neither). -/
def FindTextureID (st : TextureRegistry) (tag : String) : ℤ :=
  findTextureIDAux st tag 0

/-- Embedding of the scan loop of `FindTextureSlot`: identical control
flow to `findTextureIDAux` but a match returns the slot index. -/
def findTextureSlotAux (st : TextureRegistry) (tag : String) (index : ℕ) : ℤ :=
  if h : index < st.loadedTextures ∧ index < 16 then
    if (st.textureIDs ⟨index, h.2⟩).tag = tag then
      (index : ℤ)
    else
      findTextureSlotAux st tag (index + 1)
  else
    (-1)
termination_by st.loadedTextures - index
decreasing_by omega

/-- Embedding of `SceneManager::FindTextureSlot` (read-only like
`FindTextureID`). -/
def FindTextureSlot (st : TextureRegistry) (tag : String) : ℤ :=
  findTextureSlotAux st tag 0

/-- Outcome of the two registry scan loops started at index `k`: either
no entry from `k` on (within the loaded count and the array) matches
`tag` and both loops return `-1`, or there is a first matching index
`i ≥ k`, the slot loop returns `i`, and the ID loop returns that
entry's handle. -/
def scanOutcome (st : TextureRegistry) (tag : String) (k : ℕ) : Prop :=
  (findTextureSlotAux st tag k = -1 ∧ findTextureIDAux st tag k = -1 ∧
    ∀ i, ∀ h16 : i < 16, k ≤ i → i < st.loadedTextures →
      (st.textureIDs ⟨i, h16⟩).tag ≠ tag)
  ∨ (∃ i, ∃ h16 : i < 16, k ≤ i ∧ i < st.loadedTextures ∧
      (st.textureIDs ⟨i, h16⟩).tag = tag ∧
      findTextureSlotAux st tag k = (i : ℤ) ∧
      findTextureIDAux st tag k = (st.textureIDs ⟨i, h16⟩).ID ∧
      ∀ i2, ∀ h162 : i2 < 16, k ≤ i2 → i2 < i →
        (st.textureIDs ⟨i2, h162⟩).tag ≠ tag)

/-- Embedding of the scan loop of `SceneManager::FindMaterial` over the
`m_objectMaterials` vector: on the first entry whose tag matches, copy
its diffuse color, specular color and shininess into the output
parameter `material` (the output's tag is not written); otherwise leave
`material` as it was. -/
def findMaterialLoop (mats : List OBJECT_MATERIAL) (tag : String)
    (material : OBJECT_MATERIAL) : OBJECT_MATERIAL :=
  match mats with
  | [] => material
  | m :: rest =>
    if m.tag = tag then
      { material with
          diffuseColor := m.diffuseColor,
          specularColor := m.specularColor,
          shininess := m.shininess }
    else
      findMaterialLoop rest tag material

/-- Embedding of `SceneManager::FindMaterial`.  The C++ takes the output
parameter by reference; the embedding takes its value before the call
and returns `(returned bool, output value after the call)`.  When the
list is empty the function returns `false`; otherwise it runs the scan
loop and then executes `return(true)` regardless of whether the scan
found a match. -/
def FindMaterial (mats : List OBJECT_MATERIAL) (tag : String)
    (material : OBJECT_MATERIAL) : Bool × OBJECT_MATERIAL :=
  if mats.length = 0 then
    (false, material)
  else
    (true, findMaterialLoop mats tag material)

/-- Embedding of the loop body of `SceneManager::DestroyGLTextures`:
for each `i < m_loadedTextures` the code executes
`glGenTextures(1, &m_textureIDs[i].ID)` — i.e. it allocates a fresh GL
texture name and stores it over the recorded handle; no handle is
deleted and `m_loadedTextures` is not cleared.  A store past slot 15
would be out of bounds (`none`). -/
def destroyLoop (gl : GLState) (st : TextureRegistry) (i : ℕ) :
    Option (GLState × TextureRegistry) :=
  if i < st.loadedTextures then
    if h : i < 16 then
      let p := glGenTexture gl
      destroyLoop p.2
        { st with
            textureIDs :=
              Function.update st.textureIDs ⟨i, h⟩
                { st.textureIDs ⟨i, h⟩ with ID := p.1 } }
        (i + 1)
    else none
  else some (gl, st)
termination_by st.loadedTextures - i
decreasing_by simp_all; omega

/-- Embedding of `SceneManager::DestroyGLTextures`. -/
def DestroyGLTextures (gl : GLState) (st : TextureRegistry) :
    Option (GLState × TextureRegistry) :=
  destroyLoop gl st 0

/-- Uniform values of the shader program that the dispatcher setters
write (model matrix, `objectColor`, `bUseTexture`, `objectTexture`
sampler slot, `UVscale`, and the three `material.*` uniforms). -/
structure ShaderUniforms where
  model : Matrix (Fin 4) (Fin 4) ℝ
  objectColor : ℚ × ℚ × ℚ × ℚ
  bUseTexture : ℤ
  objectTexture : ℤ
  UVscale : ℚ × ℚ
  materialDiffuseColor : Vec3
  materialSpecularColor : Vec3
  materialShininess : ℚ

/-- Dispatcher-visible state: whether `m_pShaderManager` is non-null,
and the shader program's uniform values. -/
structure DispatcherState where
  hasShaderManager : Bool
  uniforms : ShaderUniforms

/-- Embedding of `SceneManager::SetShaderColor`: builds the RGBA value
and, only when the shader manager is non-null, pushes
`bUseTexture = false` and the color uniform. -/
def SetShaderColor (r g b a : ℚ) (d : DispatcherState) : DispatcherState :=
  if d.hasShaderManager then
    { d with uniforms :=
        { d.uniforms with bUseTexture := 0, objectColor := (r, g, b, a) } }
  else d

/-- Embedding of `SceneManager::SetShaderTexture`: when the shader
manager is non-null, pushes `bUseTexture = true` and the sampler slot
obtained from `FindTextureSlot` (which may be the `-1` sentinel). -/
def SetShaderTexture (st : TextureRegistry) (textureTag : String)
    (d : DispatcherState) : DispatcherState :=
  if d.hasShaderManager then
    { d with uniforms :=
        { d.uniforms with
            bUseTexture := 1,
            objectTexture := FindTextureSlot st textureTag } }
  else d

/-- Embedding of `SceneManager::SetTextureUVScale`: when the shader
manager is non-null, pushes the `UVscale` uniform. -/
def SetTextureUVScale (u v : ℚ) (d : DispatcherState) : DispatcherState :=
  if d.hasShaderManager then
    { d with uniforms := { d.uniforms with UVscale := (u, v) } }
  else d

/-- Embedding of `SceneManager::SetShaderMaterial`.  `uninit` is the
value of the stack local `OBJECT_MATERIAL material;` before the call to
`FindMaterial` (the C++ local is not initialized, so it is an arbitrary
parameter here).  When the material list is non-empty the code calls
`FindMaterial` and, if it returned `true`, pushes the three `material.*`
uniforms through `m_pShaderManager` with **no null check** — when the
shader manager is null that dereference is undefined behavior (`none`). -/
def SetShaderMaterial (mats : List OBJECT_MATERIAL) (materialTag : String)
    (uninit : OBJECT_MATERIAL) (d : DispatcherState) :
    Option DispatcherState :=
  if mats.length > 0 then
    let r := FindMaterial mats materialTag uninit
    if r.1 = true then
      if d.hasShaderManager then
        some { d with uniforms :=
            { d.uniforms with
                materialDiffuseColor := r.2.diffuseColor,
                materialSpecularColor := r.2.specularColor,
                materialShininess := r.2.shininess } }
      else none
    else some d
  else some d

/-- Embedding of the loop in `SceneManager::LoadSceneTextures` as a
sequence of `CreateGLTexture` calls whose decode outcomes are supplied
per call; the returned `bool` is assigned to a local and ignored, as in
the source. -/
def loadTextures (gl : GLState) (st : TextureRegistry)
    (loads : List (Option ImageData × String)) :
    Option (GLState × TextureRegistry) :=
  match loads with
  | [] => some (gl, st)
  | (decoded, tag) :: rest =>
    match CreateGLTexture gl st decoded tag with
    | some (_, gl1, st1) => loadTextures gl1 st1 rest
    | none => none

/-- The eleven `(filename, tag)` pairs passed to `CreateGLTexture` by
`SceneManager::LoadSceneTextures`, in call order. -/
def sceneTextureFiles : List (String × String) :=
  [("textures/dark_wood_floor.JPG", "floor"),
   ("textures/shiplap.JPG", "shiplap"),
   ("textures/bricks.JPG", "brick"),
   ("textures/Wood_mantle.JPG", "mantle"),
   ("textures/black_metal.JPG", "metal"),
   ("textures/black_metal2.JPG", "metal2"),
   ("textures/pine_bark.JPG", "bark"),
   ("textures/Tree_end.JPG", "tree_end"),
   ("textures/rusticwood.JPG", "rusticwood"),
   ("textures/Leaf.JPG", "leaf"),
   ("textures/BLUEY.JPG", "cartoon")]

/-- Embedding of `SceneManager::LoadSceneTextures`: the eleven
`CreateGLTexture` calls in source order, with the image loader's
outcome for each file path given by `decode`.  (The trailing
`BindGLTextures()` call touches only GL binding state, not the
registry.) -/
def LoadSceneTextures (gl : GLState) (st : TextureRegistry)
    (decode : String → Option ImageData) :
    Option (GLState × TextureRegistry) :=
  loadTextures gl st (sceneTextureFiles.map fun p => (decode p.1, p.2))

/-- The material list built by `SceneManager::DefineObjectMaterials`
(tags in append order: metal, wood, glass, plate, cheese, bread,
darkbread, shiplap, grape). -/
def woodMaterial : OBJECT_MATERIAL :=
  { diffuseColor := ⟨1/5, 1/5, 3/10⟩,
    specularColor := ⟨0, 0, 0⟩,
    shininess := 1/10,
    tag := "wood" }

/-- Embedding of `glm::radians`: degrees times pi over 180. -/
noncomputable def glmRadians (deg : ℝ) : ℝ := deg * (Real.pi / 180)

/-- Embedding of `glm::scale(scaleXYZ)`: the affine scale matrix. -/
def glmScaleMat (s : ℝ × ℝ × ℝ) : Matrix (Fin 4) (Fin 4) ℝ :=
  !![s.1, 0, 0, 0;
     0, s.2.1, 0, 0;
     0, 0, s.2.2, 0;
     0, 0, 0, 1]

/-- Embedding of `glm::rotate(angle, vec3(1,0,0))`: rotation about the
X axis. -/
noncomputable def glmRotateX (θ : ℝ) : Matrix (Fin 4) (Fin 4) ℝ :=
  !![1, 0, 0, 0;
     0, Real.cos θ, -Real.sin θ, 0;
     0, Real.sin θ, Real.cos θ, 0;
     0, 0, 0, 1]

/-- Embedding of `glm::rotate(angle, vec3(0,1,0))`: rotation about the
Y axis. -/
noncomputable def glmRotateY (θ : ℝ) : Matrix (Fin 4) (Fin 4) ℝ :=
  !![Real.cos θ, 0, Real.sin θ, 0;
     0, 1, 0, 0;
     -Real.sin θ, 0, Real.cos θ, 0;
     0, 0, 0, 1]

/-- Embedding of `glm::rotate(angle, vec3(0,0,1))`: rotation about the
Z axis. -/
noncomputable def glmRotateZ (θ : ℝ) : Matrix (Fin 4) (Fin 4) ℝ :=
  !![Real.cos θ, -Real.sin θ, 0, 0;
     Real.sin θ, Real.cos θ, 0, 0;
     0, 0, 1, 0;
     0, 0, 0, 1]

/-- Embedding of `glm::translate(positionXYZ)`: the affine translation
matrix. -/
def glmTranslateMat (t : ℝ × ℝ × ℝ) : Matrix (Fin 4) (Fin 4) ℝ :=
  !![1, 0, 0, t.1;
     0, 1, 0, t.2.1;
     0, 0, 1, t.2.2;
     0, 0, 0, 1]

/-- The model matrix computed by `SceneManager::SetTransformations`:
`modelView = translation * rotationZ * rotationY * rotationX * scale`,
each rotation built from the degree argument converted to radians. -/
noncomputable def modelViewOf (scaleXYZ : ℝ × ℝ × ℝ)
    (XrotationDegrees YrotationDegrees ZrotationDegrees : ℝ)
    (positionXYZ : ℝ × ℝ × ℝ) : Matrix (Fin 4) (Fin 4) ℝ :=
  glmTranslateMat positionXYZ *
    glmRotateZ (glmRadians ZrotationDegrees) *
    glmRotateY (glmRadians YrotationDegrees) *
    glmRotateX (glmRadians XrotationDegrees) *
    glmScaleMat scaleXYZ

/-- Embedding of `SceneManager::SetTransformations`: computes
`modelView` and, only when the shader manager is non-null, pushes it as
the `model` uniform. -/
noncomputable def SetTransformations (scaleXYZ : ℝ × ℝ × ℝ)
    (XrotationDegrees YrotationDegrees ZrotationDegrees : ℝ)
    (positionXYZ : ℝ × ℝ × ℝ) (d : DispatcherState) : DispatcherState :=
  if d.hasShaderManager then
    { d with uniforms :=
        { d.uniforms with
            model := modelViewOf scaleXYZ XrotationDegrees
              YrotationDegrees ZrotationDegrees positionXYZ } }
  else d

/-- Reference implementation from the spec, independent of the matrix
code: scaling a point componentwise. -/
def specScalePoint (s p : ℝ × ℝ × ℝ) : ℝ × ℝ × ℝ :=
  (s.1 * p.1, s.2.1 * p.2.1, s.2.2 * p.2.2)

/-- Reference implementation from the spec: rotating a point about the
X axis by `θ` radians, written coordinatewise. -/
noncomputable def specRotateXPoint (θ : ℝ) (p : ℝ × ℝ × ℝ) : ℝ × ℝ × ℝ :=
  (p.1,
   Real.cos θ * p.2.1 - Real.sin θ * p.2.2,
   Real.sin θ * p.2.1 + Real.cos θ * p.2.2)

/-- Reference implementation from the spec: rotating a point about the
Y axis by `θ` radians, written coordinatewise. -/
noncomputable def specRotateYPoint (θ : ℝ) (p : ℝ × ℝ × ℝ) : ℝ × ℝ × ℝ :=
  (Real.cos θ * p.1 + Real.sin θ * p.2.2,
   p.2.1,
   -Real.sin θ * p.1 + Real.cos θ * p.2.2)

/-- Reference implementation from the spec: rotating a point about the
Z axis by `θ` radians, written coordinatewise. -/
noncomputable def specRotateZPoint (θ : ℝ) (p : ℝ × ℝ × ℝ) : ℝ × ℝ × ℝ :=
  (Real.cos θ * p.1 - Real.sin θ * p.2.1,
   Real.sin θ * p.1 + Real.cos θ * p.2.1,
   p.2.2)

/-- Reference implementation from the spec: translating a point. -/
def specTranslatePoint (t p : ℝ × ℝ × ℝ) : ℝ × ℝ × ℝ :=
  (t.1 + p.1, t.2.1 + p.2.1, t.2.2 + p.2.2)

/-- Reference transform from the spec, applied to a point in the
spec's stated order: scale, then rotate about X, then Y, then Z, then
translate, with the rotation angles converted from degrees to
radians. -/
noncomputable def specModelPoint (s : ℝ × ℝ × ℝ) (xr yr zr : ℝ)
    (t p : ℝ × ℝ × ℝ) : ℝ × ℝ × ℝ :=
  specTranslatePoint t
    (specRotateZPoint (glmRadians zr)
      (specRotateYPoint (glmRadians yr)
        (specRotateXPoint (glmRadians xr)
          (specScalePoint s p))))

/-- Homogeneous coordinates of a 3D point. -/
def homog (p : ℝ × ℝ × ℝ) : Fin 4 → ℝ := ![p.1, p.2.1, p.2.2, 1]

/-! Concrete fixtures used to evaluate the embedded operations. -/

/-- A concrete value standing for the indeterminate contents of the
uninitialized stack local `OBJECT_MATERIAL material;`. -/
def probeMaterial : OBJECT_MATERIAL :=
  { diffuseColor := ⟨9, 9, 9⟩,
    specularColor := ⟨8, 8, 8⟩,
    shininess := 7,
    tag := "probe" }

/-- A concrete uniform state to observe setter effects against. -/
noncomputable def baseUniforms : ShaderUniforms :=
  { model := 1,
    objectColor := (0, 0, 0, 0),
    bUseTexture := 0,
    objectTexture := 0,
    UVscale := (1, 1),
    materialDiffuseColor := ⟨1, 1, 1⟩,
    materialSpecularColor := ⟨1, 1, 1⟩,
    materialShininess := 1 }

/-- Dispatcher state with a non-null shader manager. -/
noncomputable def baseDispatcher : DispatcherState :=
  { hasShaderManager := true, uniforms := baseUniforms }

/-- Dispatcher state with `m_pShaderManager == NULL`. -/
noncomputable def nullDispatcher : DispatcherState :=
  { hasShaderManager := false, uniforms := baseUniforms }

/-- A GL allocator state for concrete runs. -/
def glProbe : GLState := { nextID := 100, live := [] }

/-- A successfully decoded 3-channel (RGB) image. -/
def rgbImage : ImageData := { width := 64, height := 64, colorChannels := 3 }

/-- A successfully decoded 2-channel image (unsupported format). -/
def twoChanImage : ImageData := { width := 8, height := 8, colorChannels := 2 }

/-- A registry whose 16 slots are all occupied
(`m_loadedTextures == 16`). -/
def fullRegistry : TextureRegistry :=
  { textureIDs := fun _ => { tag := "full", ID := 1 }, loadedTextures := 16 }

/-- The registry after one successful texture load that recorded GL
handle 1 under tag `"floor"` in slot 0. -/
def oneLoadedRegistry : TextureRegistry :=
  { textureIDs :=
      Function.update (fun _ => { tag := "/0", ID := -1 })
        (0 : Fin 16) { tag := "floor", ID := 1 },
    loadedTextures := 1 }

/-- The GL allocator after that one load: handle 1 is live. -/
def glAfterOneLoad : GLState := { nextID := 2, live := [1] }

/-- A registry state whose single loaded entry stores the sentinel `-1`
as its handle (the `int` slot can hold it; e.g. the GL name 0xFFFFFFFF
cast to `int`). -/
def sentinelRegistry : TextureRegistry :=
  { textureIDs := fun _ => { tag := "t", ID := -1 }, loadedTextures := 1 }

/-- C1: the claim says `FindMaterial` reports not-found whenever the
registry is empty or no stored tag equals the given tag.  Evaluated on
the registry holding only the wood material with the tag
`"nonexistent"`, the code instead reports found (`true`) while leaving
the output parameter untouched: the final `return(true)` on the
non-empty path ignores the computed `bFound`. -/
theorem FindMaterial_reports_found_on_unmatched_tag :
    FindMaterial [woodMaterial] "nonexistent" probeMaterial
      = (true, probeMaterial) := by
  decide

/-- C2: the claim says that with only `"wood"` defined,
`SetShaderMaterial "nonexistent"` leaves the material uniforms exactly
as they were.  Because `FindMaterial` returns `true` for any tag on a
non-empty registry, the setter instead pushes the uninitialized local
material's values: here the shininess uniform changes from the prior 1
to the local's residual 7. -/
theorem SetShaderMaterial_overwrites_uniforms_on_unmatched_tag :
    ∃ d1, SetShaderMaterial [woodMaterial] "nonexistent" probeMaterial
        baseDispatcher = some d1
      ∧ d1.uniforms.materialShininess
          ≠ baseDispatcher.uniforms.materialShininess := by
  refine ⟨_, rfl, ?_⟩
  decide

/-- C3: the claim says a further load on a full registry fails cleanly
with a capacity-exceeded result and does not write outside the 16-slot
array.  Evaluated on a registry with `m_loadedTextures == 16` and a
successful 3-channel decode, the unguarded store
`m_textureIDs[m_loadedTextures] = ...` is an out-of-bounds write
(undefined behavior, `none`), not a clean failure. -/
theorem CreateGLTexture_out_of_bounds_write_when_full :
    CreateGLTexture glProbe fullRegistry (some rgbImage) "extra" = none := by
  rfl

/-- C4: the claim says `DestroyGLTextures` frees every allocated GPU
handle and resets the count to zero.  Evaluated on a registry holding
one texture with live handle 1, the code instead runs
`glGenTextures(1, &m_textureIDs[i].ID)` per slot: handle 1 is still
live (never deleted), a fresh handle 2 was allocated and stored over
slot 0, and `m_loadedTextures` is still 1. -/
theorem DestroyGLTextures_regenerates_instead_of_freeing :
    (DestroyGLTextures glAfterOneLoad oneLoadedRegistry).map
        (fun p => (p.2.loadedTextures, p.1.live, (p.2.textureIDs 0).ID))
      = some (1, [(1 : ℤ), 2], 2) := by
  simp [DestroyGLTextures, destroyLoop, glGenTexture, glAfterOneLoad,
    oneLoadedRegistry, Function.update]

/-- C7: a successful decode whose channel count is neither 3 nor 4
makes `CreateGLTexture` return `false` (after generating a GL name, as
the code does before the format check) with the registry — slot array
and loaded count — exactly as before the call. -/
theorem CreateGLTexture_rejects_odd_channel_counts
    (gl : GLState) (st : TextureRegistry) (img : ImageData) (tag : String)
    (h3 : img.colorChannels ≠ 3) (h4 : img.colorChannels ≠ 4) :
    CreateGLTexture gl st (some img) tag
      = some (false, (glGenTexture gl).2, st) := by
  simp [CreateGLTexture, h3, h4]

/-- Witness for C7 at a concrete 2-channel image on the freshly
constructed registry. -/
theorem CreateGLTexture_rejects_odd_channel_counts_witness :
    twoChanImage.colorChannels ≠ 3 ∧ twoChanImage.colorChannels ≠ 4 ∧
      CreateGLTexture glProbe SceneManagerInit (some twoChanImage) "gray"
        = some (false, (glGenTexture glProbe).2, SceneManagerInit) :=
  ⟨by decide, by decide,
    CreateGLTexture_rejects_odd_channel_counts glProbe SceneManagerInit
      twoChanImage "gray" (by decide) (by decide)⟩

/-- Action of the embedded scale matrix on a homogeneous point. -/
theorem glmScaleMat_mulVec (s p : ℝ × ℝ × ℝ) :
    (glmScaleMat s).mulVec (homog p) = homog (specScalePoint s p) := by
  funext i
  fin_cases i <;>
    simp [glmScaleMat, homog, specScalePoint, Matrix.mulVec,
      Matrix.dotProduct, Fin.sum_univ_four]

/-- Action of the embedded X-rotation matrix on a homogeneous point. -/
theorem glmRotateX_mulVec (θ : ℝ) (p : ℝ × ℝ × ℝ) :
    (glmRotateX θ).mulVec (homog p) = homog (specRotateXPoint θ p) := by
  funext i
  fin_cases i <;>
    simp [glmRotateX, homog, specRotateXPoint, Matrix.mulVec,
      Matrix.dotProduct, Fin.sum_univ_four]
  ring

/-- Action of the embedded Y-rotation matrix on a homogeneous point. -/
theorem glmRotateY_mulVec (θ : ℝ) (p : ℝ × ℝ × ℝ) :
    (glmRotateY θ).mulVec (homog p) = homog (specRotateYPoint θ p) := by
  funext i
  fin_cases i <;>
    simp [glmRotateY, homog, specRotateYPoint, Matrix.mulVec,
      Matrix.dotProduct, Fin.sum_univ_four]

/-- Action of the embedded Z-rotation matrix on a homogeneous point. -/
theorem glmRotateZ_mulVec (θ : ℝ) (p : ℝ × ℝ × ℝ) :
    (glmRotateZ θ).mulVec (homog p) = homog (specRotateZPoint θ p) := by
  funext i
  fin_cases i <;>
    simp [glmRotateZ, homog, specRotateZPoint, Matrix.mulVec,
      Matrix.dotProduct, Fin.sum_univ_four]
  ring

/-- Action of the embedded translation matrix on a homogeneous point. -/
theorem glmTranslateMat_mulVec (t p : ℝ × ℝ × ℝ) :
    (glmTranslateMat t).mulVec (homog p) = homog (specTranslatePoint t p) := by
  funext i
  fin_cases i <;>
    simp [glmTranslateMat, homog, specTranslatePoint, Matrix.mulVec,
      Matrix.dotProduct, Fin.sum_univ_four] <;> ring

/-- C5: `SetTransformations` pushes as the model-matrix uniform exactly
the product `Translation * RotationZ * RotationY * RotationX * Scale`
with every rotation angle converted from degrees to radians (and leaves
it untouched when the shader manager is null); moreover that single
matrix acts on every homogeneous point as the spec's independently
written sequence: scale first, then rotate about X, then Y, then Z,
then translate. -/
theorem SetTransformations_model_is_T_Rz_Ry_Rx_S (s : ℝ × ℝ × ℝ)
    (xr yr zr : ℝ) (pos : ℝ × ℝ × ℝ) (d : DispatcherState) :
    ((SetTransformations s xr yr zr pos d).uniforms.model
        = if d.hasShaderManager then
            glmTranslateMat pos * glmRotateZ (glmRadians zr) *
              glmRotateY (glmRadians yr) * glmRotateX (glmRadians xr) *
              glmScaleMat s
          else d.uniforms.model)
    ∧ ∀ p, (glmTranslateMat pos * glmRotateZ (glmRadians zr) *
              glmRotateY (glmRadians yr) * glmRotateX (glmRadians xr) *
              glmScaleMat s).mulVec (homog p)
        = homog (specModelPoint s xr yr zr pos p) := by
  constructor
  · by_cases h : d.hasShaderManager <;>
      simp [SetTransformations, modelViewOf, h]
  · intro p
    rw [← Matrix.mulVec_mulVec, ← Matrix.mulVec_mulVec,
      ← Matrix.mulVec_mulVec, ← Matrix.mulVec_mulVec,
      glmScaleMat_mulVec, glmRotateX_mulVec, glmRotateY_mulVec,
      glmRotateZ_mulVec, glmTranslateMat_mulVec]
    rfl

/-- The registry scan loops satisfy `scanOutcome` from every start
index; proved by downward induction on the remaining scan length. -/
theorem scanOutcome_holds (st : TextureRegistry) (tag : String) (k : ℕ) :
    scanOutcome st tag k := by
  suffices H : ∀ n k2, st.loadedTextures - k2 ≤ n → scanOutcome st tag k2 from
    H (st.loadedTextures - k) k le_rfl
  intro n
  induction n with
  | zero =>
    intro k2 hk2
    have hnot : ¬(k2 < st.loadedTextures) := by omega
    left
    refine ⟨?_, ?_, ?_⟩
    · rw [findTextureSlotAux.eq_def]; simp [hnot]
    · rw [findTextureIDAux.eq_def]; simp [hnot]
    · intro i h16 hki hic; omega
  | succ n ih =>
    intro k2 hk2
    by_cases hguard : k2 < st.loadedTextures ∧ k2 < 16
    · by_cases htag : (st.textureIDs ⟨k2, hguard.2⟩).tag = tag
      · right
        refine ⟨k2, hguard.2, le_rfl, hguard.1, htag, ?_, ?_, ?_⟩
        · rw [findTextureSlotAux.eq_def]; simp [hguard, htag]
        · rw [findTextureIDAux.eq_def]; simp [hguard, htag]
        · intro i2 h162 hki2 hi2; omega
      · have hs : findTextureSlotAux st tag k2 = findTextureSlotAux st tag (k2 + 1) := by
          rw [findTextureSlotAux.eq_def]; simp [hguard, htag]
        have hid : findTextureIDAux st tag k2 = findTextureIDAux st tag (k2 + 1) := by
          rw [findTextureIDAux.eq_def]; simp [hguard, htag]
        rcases ih (k2 + 1) (by omega) with ⟨h1, h2, h3⟩ |
          ⟨i, h16, hki, hic, hit, h5, h6, h7⟩
        · left
          refine ⟨hs.trans h1, hid.trans h2, ?_⟩
          intro i h16 hki hic
          rcases Nat.eq_or_lt_of_le hki with heq | hlt
          · subst heq; exact htag
          · exact h3 i h16 hlt hic
        · right
          refine ⟨i, h16, by omega, hic, hit, hs.trans h5, hid.trans h6, ?_⟩
          intro i2 h162 hki2 hi2
          rcases Nat.eq_or_lt_of_le hki2 with heq | hlt
          · subst heq; exact htag
          · exact h7 i2 h162 hlt hi2
    · have hnot := hguard
      left
      refine ⟨?_, ?_, ?_⟩
      · rw [findTextureSlotAux.eq_def]; simp [hguard]
      · rw [findTextureIDAux.eq_def]; simp [hguard]
      · intro i h16 hki hic
        exfalso; apply hguard; omega

/-- C8 (amended): `FindTextureID` and `FindTextureSlot` take the
registry as a plain value and return only a scalar — reading entries
and locals, mutating nothing, as in the source loops.  For every
registry state and tag: whenever the slot lookup returns a non-negative
index `i`, `i` is strictly below the loaded count and the ID lookup
returns exactly the handle stored at slot `i`; and provided no entry
within the loaded count stores the `-1` sentinel as its handle (true
of every handle recorded by loading), the slot lookup returns `-1`
exactly when the ID lookup does. -/
theorem findTextureSlot_findTextureID_consistent (st : TextureRegistry)
    (tag : String) :
    (∀ z : ℤ, 0 ≤ z → FindTextureSlot st tag = z →
        ∃ i : ℕ, ∃ h16 : i < 16, (i : ℤ) = z ∧ i < st.loadedTextures ∧
          FindTextureID st tag = (st.textureIDs ⟨i, h16⟩).ID)
    ∧ ((∀ i : Fin 16, (i : ℕ) < st.loadedTextures →
          (st.textureIDs i).ID ≠ -1) →
        (FindTextureSlot st tag = -1 ↔ FindTextureID st tag = -1)) := by
  rcases scanOutcome_holds st tag 0 with ⟨h1, h2, _⟩ |
    ⟨i, h16, _, hic, _, h5, h6, _⟩
  · constructor
    · intro z hz hslot
      rw [FindTextureSlot] at hslot
      rw [h1] at hslot
      omega
    · intro _
      rw [FindTextureSlot, FindTextureID, h1, h2]
  · constructor
    · intro z hz hslot
      rw [FindTextureSlot, h5] at hslot
      exact ⟨i, h16, hslot, hic, by rw [FindTextureID, h6]⟩
    · intro hID
      rw [FindTextureSlot, FindTextureID, h5, h6]
      constructor
      · intro h; omega
      · intro h; exact absurd h (hID ⟨i, h16⟩ hic)

/-- Witness for C8 on the registry holding one loaded texture with
handle 1 under tag `"floor"`: both the unconditional non-negative-slot
conjunct and, after discharging the no-sentinel-handle hypothesis, the
equivalence of the two `-1` results. -/
theorem findTextureSlot_findTextureID_consistent_witness :
    (∀ z : ℤ, 0 ≤ z → FindTextureSlot oneLoadedRegistry "floor" = z →
        ∃ i : ℕ, ∃ h16 : i < 16, (i : ℤ) = z ∧
          i < oneLoadedRegistry.loadedTextures ∧
          FindTextureID oneLoadedRegistry "floor"
            = (oneLoadedRegistry.textureIDs ⟨i, h16⟩).ID)
    ∧ (∀ i : Fin 16, (i : ℕ) < oneLoadedRegistry.loadedTextures →
        (oneLoadedRegistry.textureIDs i).ID ≠ -1)
    ∧ (FindTextureSlot oneLoadedRegistry "floor" = -1 ↔
        FindTextureID oneLoadedRegistry "floor" = -1) :=
  ⟨(findTextureSlot_findTextureID_consistent oneLoadedRegistry "floor").1,
    by decide,
    (findTextureSlot_findTextureID_consistent oneLoadedRegistry "floor").2
      (by decide)⟩

/-- Counterexample for C8 as frozen: on a registry state whose loaded
entry stores `-1` as its handle, the slot lookup returns 0 while the ID
lookup returns `-1`, so over literally every registry state the claimed
equivalence between the two `-1` results is false. -/
theorem findTextureSlot_findTextureID_sentinel_collision :
    FindTextureSlot sentinelRegistry "t" = 0
    ∧ FindTextureID sentinelRegistry "t" = -1
    ∧ ¬(FindTextureSlot sentinelRegistry "t" = -1 ↔
          FindTextureID sentinelRegistry "t" = -1) := by
  refine ⟨?_, ?_, ?_⟩ <;>
    simp [FindTextureSlot, FindTextureID, findTextureSlotAux,
      findTextureIDAux, sentinelRegistry]

/-- A load sequence whose length fits in the remaining capacity never
reaches the unguarded out-of-bounds store, and grows the slot count by
at most its length (each call adds at most one slot, and only on a
fully successful load). -/
theorem loadTextures_within_capacity (loads : List (Option ImageData × String)) :
    ∀ gl st, st.loadedTextures + loads.length ≤ 16 →
      ∃ p, loadTextures gl st loads = some p ∧
        p.2.loadedTextures ≤ st.loadedTextures + loads.length := by
  induction loads with
  | nil =>
    intro gl st _
    exact ⟨(gl, st), rfl, by simp⟩
  | cons hd tl ih =>
    intro gl st h
    obtain ⟨decoded, tag⟩ := hd
    match hd2 : decoded with
    | none =>
      obtain ⟨p, hp, hle⟩ := ih gl st (by simp at h ⊢; omega)
      refine ⟨p, ?_, by simp at h ⊢; omega⟩
      simpa [loadTextures, CreateGLTexture] using hp
    | some img =>
      by_cases hch : img.colorChannels = 3 ∨ img.colorChannels = 4
      · have hlt : st.loadedTextures < 16 := by simp at h; omega
        obtain ⟨p, hp, hle⟩ := ih (glGenTexture gl).2
          { textureIDs :=
              Function.update st.textureIDs ⟨st.loadedTextures, hlt⟩
                { tag := tag, ID := (glGenTexture gl).1 },
            loadedTextures := st.loadedTextures + 1 }
          (by simp at h ⊢; omega)
        refine ⟨p, ?_, by simp at h hle ⊢; omega⟩
        simpa [loadTextures, CreateGLTexture, hch, hlt] using hp
      · obtain ⟨p, hp, hle⟩ := ih (glGenTexture gl).2 st (by simp at h ⊢; omega)
        refine ⟨p, ?_, by simp at h hle ⊢; omega⟩
        simpa [loadTextures, CreateGLTexture, hch] using hp

/-- C9: `LoadSceneTextures` issues exactly 11 `CreateGLTexture` calls,
so from the constructor's empty registry the loaded-slot count after
scene preparation is at most 11 and never reaches the 16-slot
capacity; in particular the unguarded append stays inside the slot
array (the run is never undefined behavior), whatever the image
loader returns for each file. -/
theorem LoadSceneTextures_stays_within_capacity (gl : GLState)
    (decode : String → Option ImageData) :
    sceneTextureFiles.length = 11
    ∧ (11 : ℕ) < 16
    ∧ ∃ p, LoadSceneTextures gl SceneManagerInit decode = some p ∧
        p.2.loadedTextures ≤ 11 := by
  refine ⟨rfl, by norm_num, ?_⟩
  obtain ⟨p, hp, hle⟩ :=
    loadTextures_within_capacity
      (sceneTextureFiles.map fun q => (decode q.1, q.2)) gl SceneManagerInit
      (by simp [SceneManagerInit, sceneTextureFiles])
  refine ⟨p, hp, ?_⟩
  simpa [SceneManagerInit, sceneTextureFiles] using hle

/-- Characterization of a fully successful load sequence: every decode
succeeds with a supported channel count, so every call appends one
entry; afterwards the slot count has grown by the sequence length, the
previously stored entries are untouched, and slot
`(old count) + j` holds the `j`-th tag with the GL handle allocated at
the `j`-th call (`gl.nextID + j`). -/
theorem loadTextures_all_success (loads : List (Option ImageData × String)) :
    ∀ gl st,
      (∀ q ∈ loads, ∃ img, q.1 = some img ∧
        (img.colorChannels = 3 ∨ img.colorChannels = 4)) →
      st.loadedTextures + loads.length ≤ 16 →
      ∃ gl2 st2, loadTextures gl st loads = some (gl2, st2) ∧
        st2.loadedTextures = st.loadedTextures + loads.length ∧
        gl2.nextID = gl.nextID + loads.length ∧
        (∀ i : Fin 16, (i : ℕ) < st.loadedTextures →
          st2.textureIDs i = st.textureIDs i) ∧
        (∀ j, ∀ hj : j < loads.length,
          ∀ h16 : st.loadedTextures + j < 16,
          st2.textureIDs ⟨st.loadedTextures + j, h16⟩
            = { tag := (loads.get ⟨j, hj⟩).2,
                ID := gl.nextID + (j : ℤ) }) := by
  induction loads with
  | nil =>
    intro gl st _ _
    exact ⟨gl, st, rfl, by simp, by simp, fun _ _ => rfl,
      fun j hj => by simp at hj⟩
  | cons hd tl ih =>
    intro gl st hok h
    obtain ⟨decoded, tag⟩ := hd
    obtain ⟨img, hdec, hch⟩ := hok _ (List.mem_cons_self _ _)
    cases decoded with
    | none => exact absurd hdec (by simp)
    | some img2 =>
    have himg : img2 = img := by simpa using hdec
    subst himg
    have hlt : st.loadedTextures < 16 := by simp at h; omega
    obtain ⟨gl2, st2, hload, hcount, hnext, hpres, hnew⟩ :=
      ih (glGenTexture gl).2
        { textureIDs :=
            Function.update st.textureIDs ⟨st.loadedTextures, hlt⟩
              { tag := tag, ID := (glGenTexture gl).1 },
          loadedTextures := st.loadedTextures + 1 }
        (fun q hq => hok q (List.mem_cons_of_mem _ hq))
        (by simp at h ⊢; omega)
    refine ⟨gl2, st2, ?_, ?_, ?_, ?_, ?_⟩
    · have hstep : loadTextures gl st ((some img2, tag) :: tl)
          = loadTextures (glGenTexture gl).2
              { textureIDs :=
                  Function.update st.textureIDs ⟨st.loadedTextures, hlt⟩
                    { tag := tag, ID := (glGenTexture gl).1 },
                loadedTextures := st.loadedTextures + 1 } tl := by
        simp [loadTextures, CreateGLTexture, hch, hlt]
      exact hstep.trans hload
    · have h1 : st2.loadedTextures = st.loadedTextures + 1 + tl.length :=
        hcount
      simp only [List.length_cons]
      omega
    · have h2 : gl2.nextID = gl.nextID + 1 + (tl.length : ℤ) := hnext
      simp only [List.length_cons]
      push_cast
      omega
    · intro i hi
      have h3 : st2.textureIDs i
          = Function.update st.textureIDs ⟨st.loadedTextures, hlt⟩
              { tag := tag, ID := (glGenTexture gl).1 } i :=
        hpres i (show (i : ℕ) < st.loadedTextures + 1 by omega)
      rw [h3]
      exact Function.update_noteq
        (Fin.ne_of_val_ne (show (i : ℕ) ≠ st.loadedTextures by omega)) _ _
    · intro j hj h16
      cases j with
      | zero =>
        have hidx : (⟨st.loadedTextures + 0, h16⟩ : Fin 16)
            = ⟨st.loadedTextures, hlt⟩ := by
          apply Fin.ext; simp
        have h4 : st2.textureIDs ⟨st.loadedTextures, hlt⟩
            = Function.update st.textureIDs ⟨st.loadedTextures, hlt⟩
                { tag := tag, ID := (glGenTexture gl).1 }
                ⟨st.loadedTextures, hlt⟩ :=
          hpres ⟨st.loadedTextures, hlt⟩
            (show st.loadedTextures < st.loadedTextures + 1 by omega)
        rw [hidx, h4, Function.update_same]
        have h5 : (glGenTexture gl).1 = gl.nextID := rfl
        rw [h5]
        simp
      | succ j2 =>
        have hj2 : j2 < tl.length := by simp at hj; omega
        have h162 : st.loadedTextures + 1 + j2 < 16 := by omega
        have hidx : (⟨st.loadedTextures + (j2 + 1), h16⟩ : Fin 16)
            = ⟨st.loadedTextures + 1 + j2, h162⟩ := by
          apply Fin.ext; simp; omega
        rw [hidx]
        have hj3 : st2.textureIDs ⟨st.loadedTextures + 1 + j2, h162⟩
            = { tag := (tl.get ⟨j2, hj2⟩).2,
                ID := gl.nextID + 1 + (j2 : ℤ) } :=
          hnew j2 hj2 h162
        rw [hj3]
        simp only [List.get_cons_succ]
        refine congrArg (fun z => TEXTURE_ID.mk (tl.get ⟨j2, hj2⟩).2 z) ?_
        push_cast
        ring

/-- C6: after successfully loading `N ≤ 16` textures (every decode
succeeding with 3 or 4 channels) from the constructor's empty registry,
looking up the tag of load `j` returns slot index `j` and the GL handle
recorded at load time (`gl.nextID + j`) whenever `j` is that tag's
first occurrence — so a tag loaded more than once resolves to the
first-loaded entry's data — and both lookups return the `-1` sentinel
on any tag that was never loaded. -/
theorem texture_lookups_return_recorded_entries (gl : GLState)
    (loads : List (ImageData × String))
    (hch : ∀ q ∈ loads, q.1.colorChannels = 3 ∨ q.1.colorChannels = 4)
    (hlen : loads.length ≤ 16) :
    ∃ gl2 st2,
      loadTextures gl SceneManagerInit
          (loads.map fun q => (some q.1, q.2)) = some (gl2, st2) ∧
      (∀ j, ∀ hj : j < loads.length,
        (∀ j2, ∀ hj2 : j2 < j,
          (loads.get ⟨j2, Nat.lt_trans hj2 hj⟩).2 ≠ (loads.get ⟨j, hj⟩).2) →
          FindTextureSlot st2 (loads.get ⟨j, hj⟩).2 = (j : ℤ) ∧
          FindTextureID st2 (loads.get ⟨j, hj⟩).2 = gl.nextID + (j : ℤ)) ∧
      (∀ tag2, (∀ q ∈ loads, q.2 ≠ tag2) →
        FindTextureSlot st2 tag2 = -1 ∧ FindTextureID st2 tag2 = -1) := by
  have hok : ∀ q ∈ (loads.map fun q => (some q.1, q.2)),
      ∃ img, q.1 = some img ∧
        (img.colorChannels = 3 ∨ img.colorChannels = 4) := by
    intro q hq
    obtain ⟨q0, hq0, rfl⟩ := List.mem_map.mp hq
    exact ⟨q0.1, rfl, hch q0 hq0⟩
  have hlen2 : SceneManagerInit.loadedTextures
      + (loads.map fun q => (some q.1, q.2)).length ≤ 16 := by
    simp [SceneManagerInit]
    omega
  obtain ⟨gl2, st2, hload, hcount, hnext, hpres, hnew⟩ :=
    loadTextures_all_success (loads.map fun q => (some q.1, q.2)) gl
      SceneManagerInit hok hlen2
  have hcount2 : st2.loadedTextures = loads.length := by
    simpa [SceneManagerInit] using hcount
  have hentry : ∀ j, ∀ hj : j < loads.length, ∀ h16 : j < 16,
      st2.textureIDs ⟨j, h16⟩
        = { tag := (loads.get ⟨j, hj⟩).2, ID := gl.nextID + (j : ℤ) } := by
    intro j hj h16
    have h16b : SceneManagerInit.loadedTextures + j < 16 := by
      simpa [SceneManagerInit] using h16
    have hmk : (⟨SceneManagerInit.loadedTextures + j, h16b⟩ : Fin 16)
        = ⟨j, h16⟩ := by
      apply Fin.ext
      simp [SceneManagerInit]
    have hnj := hnew j (by simpa using hj) h16b
    rw [hmk] at hnj
    rw [hnj]
    simp [List.getElem_map]
  refine ⟨gl2, st2, hload, ?_, ?_⟩
  · intro j hj hfirst
    have h16 : j < 16 := by omega
    rcases scanOutcome_holds st2 (loads.get ⟨j, hj⟩).2 0 with
      ⟨_, _, h3⟩ | ⟨i, hi16, _, hic, hit, h5, h6, h7⟩
    · exfalso
      apply h3 j h16 (Nat.zero_le j) (by omega)
      rw [hentry j hj h16]
    · have hic2 : i < loads.length := by omega
      have hiteq : (loads.get ⟨i, hic2⟩).2 = (loads.get ⟨j, hj⟩).2 := by
        have := hentry i hic2 hi16
        rw [this] at hit
        exact hit
      rcases Nat.lt_trichotomy i j with hij | hij | hij
      · exact absurd hiteq (hfirst i hij)
      · subst hij
        constructor
        · exact h5
        · show findTextureIDAux st2 (loads.get ⟨i, hj⟩).2 0
            = gl.nextID + (i : ℤ)
          rw [h6, hentry i hic2 hi16]
      · exfalso
        apply h7 j h16 (Nat.zero_le j) hij
        rw [hentry j hj h16]
  · intro tag2 habs
    rcases scanOutcome_holds st2 tag2 0 with
      ⟨h1, h2, _⟩ | ⟨i, hi16, _, hic, hit, _, _, _⟩
    · exact ⟨h1, h2⟩
    · exfalso
      have hic2 : i < loads.length := by omega
      have := hentry i hic2 hi16
      rw [this] at hit
      exact habs (loads.get ⟨i, hic2⟩) (loads.get_mem i hic2) hit

/-- Witness for C6 on two successful RGB loads tagged `"floor"` and
`"brick"`. -/
theorem texture_lookups_return_recorded_entries_witness :
    (∀ q ∈ [(rgbImage, "floor"), (rgbImage, "brick")],
        q.1.colorChannels = 3 ∨ q.1.colorChannels = 4)
    ∧ ([(rgbImage, "floor"), (rgbImage, "brick")]
        : List (ImageData × String)).length ≤ 16
    ∧ ∃ gl2 st2,
        loadTextures glProbe SceneManagerInit
            (([(rgbImage, "floor"), (rgbImage, "brick")]
              : List (ImageData × String)).map
              fun q => (some q.1, q.2)) = some (gl2, st2) ∧
        (∀ j, ∀ hj : j < ([(rgbImage, "floor"), (rgbImage, "brick")]
            : List (ImageData × String)).length,
          (∀ j2, ∀ hj2 : j2 < j,
            (([(rgbImage, "floor"), (rgbImage, "brick")]
              : List (ImageData × String)).get
                ⟨j2, Nat.lt_trans hj2 hj⟩).2
              ≠ (([(rgbImage, "floor"), (rgbImage, "brick")]
                  : List (ImageData × String)).get ⟨j, hj⟩).2) →
            FindTextureSlot st2
                (([(rgbImage, "floor"), (rgbImage, "brick")]
                  : List (ImageData × String)).get ⟨j, hj⟩).2 = (j : ℤ) ∧
            FindTextureID st2
                (([(rgbImage, "floor"), (rgbImage, "brick")]
                  : List (ImageData × String)).get ⟨j, hj⟩).2
              = glProbe.nextID + (j : ℤ)) ∧
        (∀ tag2, (∀ q ∈ ([(rgbImage, "floor"), (rgbImage, "brick")]
            : List (ImageData × String)), q.2 ≠ tag2) →
          FindTextureSlot st2 tag2 = -1 ∧ FindTextureID st2 tag2 = -1) :=
  ⟨by decide, by decide,
    texture_lookups_return_recorded_entries glProbe
      [(rgbImage, "floor"), (rgbImage, "brick")] (by decide) (by decide)⟩

/-- C10 (amended): with `m_pShaderManager == NULL`, the four guarded
setters — `SetTransformations`, `SetShaderColor`, `SetShaderTexture`,
`SetTextureUVScale` — push no uniforms and return the state unchanged
for every argument, and `SetShaderMaterial` does so when the material
registry is empty. -/
theorem setters_are_noops_without_shader_manager (d : DispatcherState)
    (hnull : d.hasShaderManager = false) (s pos : ℝ × ℝ × ℝ)
    (xr yr zr : ℝ) (r g b a : ℚ) (st : TextureRegistry) (ttag : String)
    (u v : ℚ) (mtag : String) (uninit : OBJECT_MATERIAL) :
    SetTransformations s xr yr zr pos d = d
    ∧ SetShaderColor r g b a d = d
    ∧ SetShaderTexture st ttag d = d
    ∧ SetTextureUVScale u v d = d
    ∧ SetShaderMaterial [] mtag uninit d = some d := by
  refine ⟨?_, ?_, ?_, ?_, ?_⟩ <;>
    simp [SetTransformations, SetShaderColor, SetShaderTexture,
      SetTextureUVScale, SetShaderMaterial, hnull]

/-- Witness for C10's amended statement at the concrete null-manager
dispatcher state. -/
theorem setters_are_noops_without_shader_manager_witness :
    nullDispatcher.hasShaderManager = false
    ∧ (SetTransformations (1, 1, 1) 0 0 0 (0, 0, 0) nullDispatcher
          = nullDispatcher
      ∧ SetShaderColor 0 0 0 0 nullDispatcher = nullDispatcher
      ∧ SetShaderTexture SceneManagerInit "floor" nullDispatcher
          = nullDispatcher
      ∧ SetTextureUVScale 1 1 nullDispatcher = nullDispatcher
      ∧ SetShaderMaterial [] "wood" probeMaterial nullDispatcher
          = some nullDispatcher) :=
  ⟨rfl,
    setters_are_noops_without_shader_manager nullDispatcher rfl (1, 1, 1)
      (0, 0, 0) 0 0 0 0 0 0 0 SceneManagerInit "floor" 1 1 "wood"
      probeMaterial⟩

/-- Counterexample for C10 as frozen: with a null shader manager and a
non-empty material registry, `SetShaderMaterial` reaches the unguarded
`m_pShaderManager->setVec3Value` calls — a null dereference (undefined
behavior, `none`) rather than a clean silent no-op. -/
theorem SetShaderMaterial_dereferences_null_shader_manager :
    SetShaderMaterial [woodMaterial] "wood" probeMaterial nullDispatcher
      = none := rfl

end SceneMgr
